import Mathlib

/-!
Verification of the conversational tool-orchestration engine of this
repository (`mcp_chatbot.py`, `research_server.py`).

The engine's pure control flow is embedded shallowly:

* The language model and the MCP transport session are external
  collaborators.  Their behaviour (one completion, one `call_tool`
  reply per invocation) is passed in as data (`AssistantResponse`) or
  as a function-valued environment (`Env`).
* Python's `json.loads` is a third-party library call; it is modelled
  as the `parseJson` field of the environment, returning `none` when
  the Python call would raise `JSONDecodeError`.
* Python exceptions are modelled with `Except String`; a `try/except`
  block becomes a `match` on the `Except` value.
* `print` output is not observable state and is dropped; conversation
  history (`self.message_history`) and the sequence of provider calls
  issued through the session are the observable effects and are
  returned explicitly.
-/

/-- A JSON value, the result of a successful `json.loads`. -/
inductive Json where
  | null
  | bool (b : Bool)
  | num (n : Int)
  | str (s : String)
  | arr (elems : List Json)
  | obj (fields : List (String × Json))

/-- One entry of `assistant_message.tool_calls`: `tool_call.id`,
`tool_call.function.name`, `tool_call.function.arguments` (a raw
JSON-encoded string). -/
structure ToolCall where
  id : String
  name : String
  arguments : String
deriving DecidableEq

/-- A conversation message as stored in `self.message_history`:
either one of the role-tagged dicts built by `process_query`, or the
assistant message object appended verbatim. -/
inductive Message where
  | system (content : String)
  | user (content : String)
  | assistant (content : String) (toolCalls : List ToolCall)
  | tool (toolCallId : String) (content : String)
deriving DecidableEq

/-- `true` exactly on `tool`-role messages. -/
def isToolMsg : Message → Bool
  | Message.tool _ _ => true
  | _ => false

/-- One element of `result.content` returned by `session.call_tool`:
`text` is `some t` when the item has a `.text` attribute with value
`t`, and `none` when attribute access would raise. -/
structure ContentItem where
  text : Option String
deriving DecidableEq

/-- The value returned by a successful `session.call_tool`:
its `content` list and `contentRepr`, the string `str(result.content)`
used by `process_query` when the first item has no `.text`. -/
structure CallResult where
  content : List ContentItem
  contentRepr : String
deriving DecidableEq

/-- A model completion (`response.choices[0].message`): its `content`
text and its `tool_calls` (empty list when the model requested no
tools, matching Python falsiness of `None`/`[]`). -/
structure AssistantResponse where
  content : String
  toolCalls : List ToolCall
deriving DecidableEq

/-- A record of one provider invocation issued through the transport
session: tool name and the arguments object passed to `call_tool`. -/
structure ProviderCall where
  name : String
  args : Json

/-- The external collaborators of the engine.

* `parseJson` models the library call `json.loads`: `none` when it
  would raise `json.JSONDecodeError`.
* `callTool` models `self.session.call_tool`: `Except.error` when the
  awaited call raises (timeout, remote error, unknown tool). -/
structure Env where
  parseJson : String → Option Json
  callTool : String → Json → Except String CallResult

/-- `result.content[0].text` as accessed in
`MCP_ChatBot.handle_search_and_summarize` (src/mcp_chatbot.py lines
39, 47, 56): raises on an empty content list (`IndexError`) or on a
missing `.text` attribute (`AttributeError`). -/
def getText (r : CallResult) : Except String String :=
  match r.content with
  | [] => Except.error "IndexError: list index out of range"
  | item :: _ =>
    match item.text with
    | some t => Except.ok t
    | none => Except.error "AttributeError: object has no attribute text"

/-- `result.content[0].text if hasattr(result.content[0], "text") else
str(result.content)` from `MCP_ChatBot.process_query`
(src/mcp_chatbot.py lines 91-93): still raises `IndexError` on an
empty content list. -/
def normalizeText (r : CallResult) : Except String String :=
  match r.content with
  | [] => Except.error "IndexError: list index out of range"
  | item :: _ =>
    match item.text with
    | some t => Except.ok t
    | none => Except.ok r.contentRepr

/-- Observable outcome of one identifier's pass through the chain body
of `handle_search_and_summarize`: the provider calls issued for it,
the condensation text produced (if any was printed), and whether the
per-identifier `except` branch fired. -/
structure ChainOutcome where
  calls : List ProviderCall
  summary : Option String
  failed : Bool

/-- The tail of the per-identifier chain body
(src/mcp_chatbot.py lines 53-59): `if "summarize_paper" in {...}` then
`call_tool("summarize_paper", {"text": text_to_summarize})` and read
`.content[0].text`; otherwise only a notice is printed.  `calls0` are
the provider calls already issued for this identifier. -/
def summarizePhase (env : Env) (avail : List String) (calls0 : List ProviderCall)
    (text : String) : ChainOutcome :=
  if "summarize_paper" ∈ avail then
    match env.callTool "summarize_paper" (Json.obj [("text", Json.str text)]) with
    | Except.error _ =>
      ⟨calls0 ++ [⟨"summarize_paper", Json.obj [("text", Json.str text)]⟩], none, true⟩
    | Except.ok r =>
      match getText r with
      | Except.error _ =>
        ⟨calls0 ++ [⟨"summarize_paper", Json.obj [("text", Json.str text)]⟩], none, true⟩
      | Except.ok s =>
        ⟨calls0 ++ [⟨"summarize_paper", Json.obj [("text", Json.str text)]⟩], some s, false⟩
  else
    ⟨calls0, none, false⟩

/-- The body of the `for pid in paper_ids[:3]` loop of
`MCP_ChatBot.handle_search_and_summarize` (src/mcp_chatbot.py lines
36-61).  The whole body sits in one `try/except`, so any raise
(from `call_tool` or from `.content[0].text`) ends this identifier's
chain with `failed = true` and no further calls for it.

`full_text or info_text` follows Python truthiness: an *empty* full
text falls back to the metadata text; the branch is only reached when
the `get_full_text` call itself did not raise. -/
def chainStep (env : Env) (avail : List String) (pid : Json) : ChainOutcome :=
  match env.callTool "extract_info" (Json.obj [("paper_id", pid)]) with
  | Except.error _ => ⟨[⟨"extract_info", Json.obj [("paper_id", pid)]⟩], none, true⟩
  | Except.ok infoResult =>
    match getText infoResult with
    | Except.error _ => ⟨[⟨"extract_info", Json.obj [("paper_id", pid)]⟩], none, true⟩
    | Except.ok infoText =>
      if "get_full_text" ∈ avail then
        match env.callTool "get_full_text" (Json.obj [("paper_id", pid)]) with
        | Except.error _ =>
          ⟨[⟨"extract_info", Json.obj [("paper_id", pid)]⟩,
            ⟨"get_full_text", Json.obj [("paper_id", pid)]⟩], none, true⟩
        | Except.ok ftResult =>
          match getText ftResult with
          | Except.error _ =>
            ⟨[⟨"extract_info", Json.obj [("paper_id", pid)]⟩,
              ⟨"get_full_text", Json.obj [("paper_id", pid)]⟩], none, true⟩
          | Except.ok fullText =>
            summarizePhase env avail
              [⟨"extract_info", Json.obj [("paper_id", pid)]⟩,
               ⟨"get_full_text", Json.obj [("paper_id", pid)]⟩]
              (if fullText = "" then infoText else fullText)
      else
        summarizePhase env avail [⟨"extract_info", Json.obj [("paper_id", pid)]⟩] infoText

/-- Python semantics of `paper_ids[:3]` followed by iteration, where
`paper_ids` is an arbitrary `json.loads` result: a list yields its
first three elements; a string yields its first three characters as
one-character strings; every other JSON value raises `TypeError`
(caught by the chaining `except` in `process_query`). -/
def pyIter3 : Json → Except String (List Json)
  | Json.arr xs => Except.ok (xs.take 3)
  | Json.str s => Except.ok ((s.toList.take 3).map (fun ch => Json.str (String.mk [ch])))
  | _ => Except.error "TypeError: value is not subscriptable"

/-- `MCP_ChatBot.handle_search_and_summarize` (src/mcp_chatbot.py
lines 34-61): iterate the first three identifiers, running the
independent per-identifier chain body on each.  `Except.error` models
a raise escaping the function (only the slice/iteration itself can
raise; each loop body catches its own exceptions). -/
def handle_search_and_summarize (env : Env) (avail : List String) (paper_ids : Json) :
    Except String (List ChainOutcome) :=
  match pyIter3 paper_ids with
  | Except.error e => Except.error e
  | Except.ok pids => Except.ok (pids.map (chainStep env avail))

/-- Observable effect of processing one `tool_call` of the assistant
message: the messages appended to `self.message_history`, the provider
calls issued, and the chain outcomes (empty unless chaining ran). -/
structure StepResult where
  appended : List Message
  calls : List ProviderCall
  chains : List ChainOutcome

/-- One iteration of the `for tool_call in assistant_message.tool_calls`
loop of `MCP_ChatBot.process_query` (src/mcp_chatbot.py lines 79-112):

1. `json.loads(tool_call.function.arguments)`; on `JSONDecodeError`
   the loop `continue`s — nothing appended, provider never contacted.
2. `session.call_tool(...)`; a raise is caught by the outer `except`
   (line 111) — only a diagnostic is printed, nothing appended.
3. Normalize the result text; an `IndexError` here is likewise caught
   by the outer `except` before the append at line 94.
4. Append the `tool`-role message.
5. Chaining gate (line 105): only when the tool is `search_papers`
   and both `extract_info` and `summarize_paper` are available; the
   inner `try/except` (lines 106-110) swallows `json.loads` errors on
   the result text and any raise out of the chain handler. -/
def dispatchToolCall (env : Env) (avail : List String) (tc : ToolCall) : StepResult :=
  match env.parseJson tc.arguments with
  | none => ⟨[], [], []⟩
  | some toolArgs =>
    match env.callTool tc.name toolArgs with
    | Except.error _ => ⟨[], [⟨tc.name, toolArgs⟩], []⟩
    | Except.ok result =>
      match normalizeText result with
      | Except.error _ => ⟨[], [⟨tc.name, toolArgs⟩], []⟩
      | Except.ok text =>
        if tc.name = "search_papers" ∧ "extract_info" ∈ avail ∧ "summarize_paper" ∈ avail then
          match env.parseJson text with
          | none => ⟨[Message.tool tc.id text], [⟨tc.name, toolArgs⟩], []⟩
          | some paperIds =>
            match handle_search_and_summarize env avail paperIds with
            | Except.error _ => ⟨[Message.tool tc.id text], [⟨tc.name, toolArgs⟩], []⟩
            | Except.ok outs =>
              ⟨[Message.tool tc.id text],
               ⟨tc.name, toolArgs⟩ :: (outs.map ChainOutcome.calls).flatten, outs⟩
        else
          ⟨[Message.tool tc.id text], [⟨tc.name, toolArgs⟩], []⟩

/-- Observable effect of one `process_query` turn: the new message
history, all provider calls issued, the per-tool-call step results,
and the final answer text printed for the user. -/
structure QueryResult where
  history : List Message
  calls : List ProviderCall
  steps : List StepResult
  emitted : String

/-- `MCP_ChatBot.process_query` (src/mcp_chatbot.py lines 63-123).
The initial completion `resp` and the follow-up completion `fu` are
external model outputs passed as data.  The user message and the
assistant message are always appended (lines 75-76); with no tool
calls the assistant text is printed directly (line 123); otherwise
each tool call is dispatched in order and the follow-up completion is
printed and appended (lines 114-121). -/
def process_query (env : Env) (avail : List String) (history : List Message)
    (query : String) (resp fu : AssistantResponse) : QueryResult :=
  if resp.toolCalls.isEmpty then
    ⟨history ++ [Message.user query, Message.assistant resp.content resp.toolCalls],
     [], [], resp.content⟩
  else
    ⟨history ++ [Message.user query, Message.assistant resp.content resp.toolCalls]
       ++ ((resp.toolCalls.map (dispatchToolCall env avail)).map StepResult.appended).flatten
       ++ [Message.assistant fu.content fu.toolCalls],
     ((resp.toolCalls.map (dispatchToolCall env avail)).map StepResult.calls).flatten,
     resp.toolCalls.map (dispatchToolCall env avail),
     fu.content⟩

/-! ## Provider-side storage model (`research_server.py`)

`search_papers` in src/research_server.py (lines 33-65, identical merge
logic in src/chat_bot_openAI.py lines 27-60) loads the topic's
`papers_info.json` into a Python dict (empty on `FileNotFoundError` or
`JSONDecodeError`), assigns `papers_info[pid] = {...}` for each search
result in order, and rewrites the file with the merged dict.  The dict
is modelled as an association list with Python-dict assignment
semantics (replace in place when the key exists, append otherwise);
the arXiv results are external data passed in as a list of pairs. -/

/-- Metadata stored per paper by `search_papers`. -/
structure PaperInfo where
  title : String
  authors : List String
  summary : String
  pdf_url : String
  published : String
deriving DecidableEq

/-- Python dict assignment `d[k] = v` on an insertion-ordered
association list: overwrite the (unique) existing entry in place when
`k` is present, append at the end otherwise. -/
def dictInsert : List (String × PaperInfo) → String → PaperInfo → List (String × PaperInfo)
  | [], k, v => [(k, v)]
  | (k9, v9) :: rest, k, v =>
    if k9 = k then (k9, v) :: rest else (k9, v9) :: dictInsert rest k v

/-- Python dict lookup `d.get(k)` on the association-list model. -/
def dictLookup : List (String × PaperInfo) → String → Option PaperInfo
  | [], _ => none
  | (k9, v) :: rest, k => if k = k9 then some v else dictLookup rest k

/-- The merge-and-rewrite core of `search_papers`
(src/research_server.py lines 44-65): `fileContents` is the parsed
existing `papers_info.json` (`none` when the file is missing or
unreadable, which the `except` branch turns into `papers_info = {}`),
`results` the arXiv search results as (short id, metadata) pairs in
arrival order.  Returns the `paper_ids` return value and the mapping
written back to the file. -/
def search_papers (fileContents : Option (List (String × PaperInfo)))
    (results : List (String × PaperInfo)) :
    List String × List (String × PaperInfo) :=
  results.foldl (fun acc p => (acc.1 ++ [p.1], dictInsert acc.2 p.1 p.2))
    ([], fileContents.getD [])

/-! ## Concrete instances used by counterexamples and witnesses -/

/-- Session whose every `call_tool` raises; `json.loads` succeeds only
on the one argument string used alongside it. -/
def envC1 : Env :=
  ⟨fun s => if s = "\x7b\"topic\": \"x\"\x7d" then some (Json.obj [("topic", Json.str "x")])
            else none,
   fun _ _ => Except.error "TimeoutError: request timed out"⟩

/-- A well-formed `search_papers` tool call whose invocation will
raise under `envC1`. -/
def tcC1 : ToolCall := ⟨"call_1", "search_papers", "\x7b\"topic\": \"x\"\x7d"⟩

/-- Assistant completion requesting exactly `tcC1`. -/
def respC1 : AssistantResponse := ⟨"", [tcC1]⟩

/-- Follow-up completion used after tool execution. -/
def fuC1 : AssistantResponse := ⟨"done", []⟩

/-- Environment on which `json.loads` always raises. -/
def envC2 : Env :=
  ⟨fun _ => none, fun _ _ => Except.error "unreachable"⟩

/-- Tool call whose `arguments` string is not JSON. -/
def tcC2 : ToolCall := ⟨"call_2", "search_papers", "\x7bnot json"⟩

/-- Session where discovery and detail succeed; the catalog for C3
lacks `summarize_paper`, so the detail tool would work if called. -/
def envC3 : Env :=
  ⟨fun s =>
     if s = "\x7b\"topic\": \"ml\"\x7d" then some (Json.obj [("topic", Json.str "ml")])
     else if s = "[\"p1\"]" then some (Json.arr [Json.str "p1"])
     else none,
   fun name _ =>
     if name = "search_papers" then Except.ok ⟨[⟨some "[\"p1\"]"⟩], "r"⟩
     else if name = "extract_info" then Except.ok ⟨[⟨some "paper one metadata"⟩], "r"⟩
     else Except.error "unknown tool"⟩

/-- Discovery tool call used with `envC3`. -/
def tcC3 : ToolCall := ⟨"call_3", "search_papers", "\x7b\"topic\": \"ml\"\x7d"⟩

/-- Catalog with the detail tool but without the condensation tool. -/
def availC3 : List String := ["search_papers", "extract_info"]

/-- Fully successful session returning four identifiers from
discovery; detail and condensation always succeed. -/
def envC4 : Env :=
  ⟨fun s =>
     if s = "\x7b\"topic\": \"ml\"\x7d" then some (Json.obj [("topic", Json.str "ml")])
     else if s = "[\"p1\",\"p2\",\"p3\",\"p4\"]" then
       some (Json.arr [Json.str "p1", Json.str "p2", Json.str "p3", Json.str "p4"])
     else none,
   fun name _ =>
     if name = "search_papers" then Except.ok ⟨[⟨some "[\"p1\",\"p2\",\"p3\",\"p4\"]"⟩], "r"⟩
     else if name = "extract_info" then Except.ok ⟨[⟨some "metadata"⟩], "r"⟩
     else if name = "summarize_paper" then Except.ok ⟨[⟨some "short summary"⟩], "r"⟩
     else Except.error "unknown tool"⟩

/-- Discovery tool call used with `envC4`. -/
def tcC4 : ToolCall := ⟨"call_4", "search_papers", "\x7b\"topic\": \"ml\"\x7d"⟩

/-- Full catalog of the three chained tools. -/
def availC4 : List String := ["search_papers", "extract_info", "summarize_paper"]

/-- Session where detail retrieval raises exactly for identifier
`"pb"` and succeeds for every other identifier; condensation always
succeeds. -/
def envC5 : Env :=
  ⟨fun _ => none,
   fun name args =>
     if name = "extract_info" then
       match args with
       | Json.obj [("paper_id", Json.str pid)] =>
         if pid = "pb" then Except.error "remote error: detail retrieval failed"
         else Except.ok ⟨[⟨some ("meta-" ++ pid)⟩], "r"⟩
       | _ => Except.error "bad arguments"
     else if name = "summarize_paper" then Except.ok ⟨[⟨some "summary-a"⟩], "r"⟩
     else Except.error "unknown tool"⟩

/-- Catalog used with `envC5` (no richer-detail tool). -/
def availC5 : List String := ["search_papers", "extract_info", "summarize_paper"]

/-- Session whose discovery result text is the JSON string `"ab"`
(valid JSON, not an identifier array); detail calls raise. -/
def envC6 : Env :=
  ⟨fun s =>
     if s = "\x7b\"topic\": \"ml\"\x7d" then some (Json.obj [("topic", Json.str "ml")])
     else if s = "\"ab\"" then some (Json.str "ab")
     else none,
   fun name _ =>
     if name = "search_papers" then Except.ok ⟨[⟨some "\"ab\""⟩], "r"⟩
     else Except.error "remote error"⟩

/-- Discovery tool call used with `envC6`. -/
def tcC6 : ToolCall := ⟨"call_6", "search_papers", "\x7b\"topic\": \"ml\"\x7d"⟩

/-- Full catalog of the three chained tools, for `envC6`. -/
def availC6 : List String := ["search_papers", "extract_info", "summarize_paper"]

/-- Session where detail, richer detail and condensation all succeed,
with a nonempty full text. -/
def envC7 : Env :=
  ⟨fun _ => none,
   fun name _ =>
     if name = "extract_info" then Except.ok ⟨[⟨some "metadata text"⟩], "r"⟩
     else if name = "get_full_text" then Except.ok ⟨[⟨some "full paper text"⟩], "r"⟩
     else if name = "summarize_paper" then Except.ok ⟨[⟨some "short summary"⟩], "r"⟩
     else Except.error "unknown tool"⟩

/-- Session identical to `envC7` except that the richer-detail call
raises. -/
def envC7x : Env :=
  ⟨fun _ => none,
   fun name _ =>
     if name = "extract_info" then Except.ok ⟨[⟨some "metadata text"⟩], "r"⟩
     else if name = "get_full_text" then Except.error "TimeoutError: download timed out"
     else if name = "summarize_paper" then Except.ok ⟨[⟨some "short summary"⟩], "r"⟩
     else Except.error "unknown tool"⟩

/-- Catalog declaring the richer-detail tool as available. -/
def availC7 : List String :=
  ["search_papers", "extract_info", "get_full_text", "summarize_paper"]

/-- Inert session for turns that never reach the provider. -/
def envPlain : Env :=
  ⟨fun _ => none, fun _ _ => Except.error "no provider"⟩

/-- A completion with no tool requests. -/
def respPlain : AssistantResponse := ⟨"Paris is the capital of France.", []⟩

/-- A follow-up completion (unused on the plain-answer path). -/
def fuPlain : AssistantResponse := ⟨"unused follow-up", []⟩

/-- A stored paper entry used by the C10 witness. -/
def paperOld : PaperInfo := ⟨"Old title", ["A. Author"], "old summary", "http://pdf/old", "2021-01-01"⟩

/-- A freshly found paper entry used by the C10 witness. -/
def paperNew : PaperInfo := ⟨"New title", ["B. Author"], "new summary", "http://pdf/new", "2024-05-06"⟩

/-- Session whose discovery result text is not JSON at all; argument
parsing succeeds. -/
def envC6w : Env :=
  ⟨fun s => if s = "\x7b\"topic\": \"ml\"\x7d" then some (Json.obj [("topic", Json.str "ml")])
            else none,
   fun name _ =>
     if name = "search_papers" then Except.ok ⟨[⟨some "oops not json"⟩], "r"⟩
     else Except.error "remote error"⟩

/-! ## Helper lemmas -/

/-- When the condensation tool is in the catalog, the summarize phase
always issues exactly one `summarize_paper` call carrying the chosen
text, whatever that call returns. -/
theorem summarizePhase_calls (env : Env) (avail : List String)
    (calls0 : List ProviderCall) (text : String)
    (hsp : "summarize_paper" ∈ avail) :
    (summarizePhase env avail calls0 text).calls
      = calls0 ++ [⟨"summarize_paper", Json.obj [("text", Json.str text)]⟩] := by
  unfold summarizePhase
  rw [if_pos hsp]
  cases h1 : env.callTool "summarize_paper" (Json.obj [("text", Json.str text)]) with
  | error e => rfl
  | ok r =>
    dsimp only
    cases h2 : getText r with
    | error e => rfl
    | ok s => rfl

/-- Python dict assignment of key `k9` leaves lookups of any other key
unchanged. -/
theorem dictLookup_dictInsert_ne (m : List (String × PaperInfo)) (k k9 : String)
    (v : PaperInfo) (h : k ≠ k9) :
    dictLookup (dictInsert m k9 v) k = dictLookup m k := by
  induction m with
  | nil => simp [dictInsert, dictLookup, h]
  | cons kv rest ih =>
    obtain ⟨a, b⟩ := kv
    by_cases ha : a = k9
    · subst ha
      simp [dictInsert, dictLookup, h]
    · simp [dictInsert, dictLookup, ha, ih]

/-- The merge loop of `search_papers` never disturbs entries whose key
is not among the incoming result ids. -/
theorem search_papers_foldl_preserves (k : String) :
    ∀ (results : List (String × PaperInfo)) (ids : List String)
      (m : List (String × PaperInfo)),
      k ∉ results.map Prod.fst →
      dictLookup
          (results.foldl (fun acc p => (acc.1 ++ [p.1], dictInsert acc.2 p.1 p.2)) (ids, m)).2 k
        = dictLookup m k := by
  intro results
  induction results with
  | nil => intro ids m _; rfl
  | cons p rest ih =>
    intro ids m hk
    have hne : k ≠ p.1 := fun hcontra => hk (by simp [hcontra])
    have hk2 : k ∉ rest.map Prod.fst := fun hcontra => hk (by simp [hcontra])
    simp only [List.foldl_cons]
    rw [ih (ids ++ [p.1]) (dictInsert m p.1 p.2) hk2]
    exact dictLookup_dictInsert_ne m k p.1 p.2 hne

/-! ## Claim theorems -/

/-- C8: for any turn of `process_query`, the message history after the
turn is a strict extension of the history before it — messages are
only ever appended, never removed or reordered.  `process_query` is
the only code path mutating `self.message_history`, so this extends to
any sequence of turns. -/
theorem claim_C8 (env : Env) (avail : List String) (h : List Message) (q : String)
    (resp fu : AssistantResponse) :
    ∃ s, s ≠ [] ∧ (process_query env avail h q resp fu).history = h ++ s := by
  unfold process_query
  cases hE : resp.toolCalls.isEmpty
  · exact ⟨[Message.user q, Message.assistant resp.content resp.toolCalls]
        ++ ((resp.toolCalls.map (dispatchToolCall env avail)).map StepResult.appended).flatten
        ++ [Message.assistant fu.content fu.toolCalls],
      by simp, by simp⟩
  · exact ⟨[Message.user q, Message.assistant resp.content resp.toolCalls],
      by simp, by simp⟩

/-- C9: when the model's completion carries no tool requests,
`process_query` emits the completion text directly as the final
answer, issues no provider call, and the history gains exactly the
user message and the assistant message, in that order. -/
theorem claim_C9 (env : Env) (avail : List String) (h : List Message) (q : String)
    (resp fu : AssistantResponse) (hn : resp.toolCalls = []) :
    process_query env avail h q resp fu
      = ⟨h ++ [Message.user q, Message.assistant resp.content []], [], [], resp.content⟩ := by
  simp [process_query, hn]

/-- Witness for C9 at a concrete plain-answer turn. -/
theorem claim_C9_witness :
    process_query envPlain [] [] "What is the capital of France?" respPlain fuPlain
      = ⟨[Message.user "What is the capital of France?",
          Message.assistant "Paris is the capital of France." []], [], [],
         "Paris is the capital of France."⟩ :=
  claim_C9 envPlain [] [] "What is the capital of France?" respPlain fuPlain rfl

/-- C10: when the topic's `papers_info.json` exists and is readable
(`some m`), `search_papers` merges the new results into the existing
mapping: every entry whose paper id is not among the current search
results is preserved unchanged in the rewritten file. -/
theorem claim_C10 (m results : List (String × PaperInfo)) (k : String)
    (hk : k ∉ results.map Prod.fst) :
    dictLookup (search_papers (some m) results).2 k = dictLookup m k := by
  unfold search_papers
  exact search_papers_foldl_preserves k results [] m hk

/-- Witness for C10: a stored entry for an id absent from the new
results survives the merge. -/
theorem claim_C10_witness :
    dictLookup (search_papers (some [("2101.00001", paperOld)])
        [("2405.00002", paperNew)]).2 "2101.00001" = some paperOld := by
  rw [claim_C10 [("2101.00001", paperOld)] [("2405.00002", paperNew)] "2101.00001"
      (by decide)]
  rfl

/-- C1 (amended): when a tool invocation through the session raises,
the dispatcher swallows the exception — the loop body is total, so the
orchestration loop remains live and the provider call is on record —
but only a printed diagnostic reports it: **no** failure tool-role
message is appended to the conversation history.  (The claim's
assertion that the failure text is appended as a tool message is
refuted by `claim_C1_counterexample`.) -/
theorem claim_C1 (env : Env) (avail : List String) (tc : ToolCall) (args : Json)
    (err : String)
    (hp : env.parseJson tc.arguments = some args)
    (hc : env.callTool tc.name args = Except.error err) :
    dispatchToolCall env avail tc = ⟨[], [⟨tc.name, args⟩], []⟩ := by
  simp [dispatchToolCall, hp, hc]

/-- Counterexample to C1 as stated: a turn whose only tool call raises
a timeout.  The provider was invoked (the call is on record) and the
turn completes, but the resulting history contains no tool-role
message at all — the failure text is never appended to the
conversation, contradicting the claim. -/
theorem claim_C1_counterexample :
    (process_query envC1 ["search_papers"] [] "find papers" respC1 fuC1).calls
        = [⟨"search_papers", Json.obj [("topic", Json.str "x")]⟩]
      ∧ (process_query envC1 ["search_papers"] [] "find papers" respC1 fuC1).history
        = [Message.user "find papers", Message.assistant "" [tcC1],
           Message.assistant "done" []]
      ∧ ((process_query envC1 ["search_papers"] [] "find papers" respC1 fuC1).history.filter
          isToolMsg) = [] :=
  ⟨rfl, rfl, rfl⟩

/-- Witness for the amended C1 at a concrete raising invocation. -/
theorem claim_C1_witness :
    dispatchToolCall envC1 ["search_papers"] tcC1
      = ⟨[], [⟨"search_papers", Json.obj [("topic", Json.str "x")]⟩], []⟩ :=
  claim_C1 envC1 ["search_papers"] tcC1 (Json.obj [("topic", Json.str "x")])
    "TimeoutError: request timed out" rfl rfl

/-- C2 (amended): when `tool_call.function.arguments` does not parse
as JSON, the dispatcher skips the request entirely: the provider's
`call_tool` is never invoked for it **and nothing is appended to the
conversation** — the loop just `continue`s.  (The claim's assertion
that a synthetic failure tool message is appended is refuted by
`claim_C2_counterexample`; the never-invoked part is confirmed.) -/
theorem claim_C2 (env : Env) (avail : List String) (tc : ToolCall)
    (hp : env.parseJson tc.arguments = none) :
    dispatchToolCall env avail tc = ⟨[], [], []⟩ := by
  simp [dispatchToolCall, hp]

/-- Counterexample to C2 as stated: for the malformed-argument request
`rawArguments = "{not json"`, the dispatcher appends no message at all
(hence no synthetic failure tool message), while indeed never invoking
the provider. -/
theorem claim_C2_counterexample :
    (dispatchToolCall envC2 ["search_papers"] tcC2).appended = []
      ∧ (dispatchToolCall envC2 ["search_papers"] tcC2).calls = [] :=
  ⟨rfl, rfl⟩

/-- Witness for the amended C2 at a concrete malformed request. -/
theorem claim_C2_witness :
    dispatchToolCall envC2 ["extract_info"] tcC2 = ⟨[], [], []⟩ :=
  claim_C2 envC2 ["extract_info"] tcC2 rfl

/-- C3 (amended): when the condensation tool `summarize_paper` is
absent from the catalog, the chaining gate in `process_query` (which
requires *both* `extract_info` and `summarize_paper` to be available)
does not fire at all after a successful `search_papers` run: the
discovery result message is appended and no further provider call —
in particular no detail fetch — is made, and no error is raised.
(The claim's "still fetches detail for each identifier" is refuted by
`claim_C3_counterexample`; the "no condensation, no error" part is
confirmed.) -/
theorem claim_C3 (env : Env) (avail : List String) (tc : ToolCall) (args : Json)
    (r : CallResult) (text : String)
    (hs : "summarize_paper" ∉ avail)
    (hp : env.parseJson tc.arguments = some args)
    (hc : env.callTool tc.name args = Except.ok r)
    (hn : normalizeText r = Except.ok text) :
    dispatchToolCall env avail tc = ⟨[Message.tool tc.id text], [⟨tc.name, args⟩], []⟩ := by
  have hgate : ¬(tc.name = "search_papers" ∧ "extract_info" ∈ avail
      ∧ "summarize_paper" ∈ avail) := fun hAnd => hs hAnd.2.2
  simp [dispatchToolCall, hp, hc, hn, hgate]

/-- Counterexample to C3 as stated: catalog = `search_papers`,
`extract_info` (condensation tool absent); `search_papers` succeeds
returning identifier `p1` and `extract_info` would succeed if called.
The claim demands a detail fetch for `p1`; the code performs no
chaining at all — the only provider call of the whole dispatch is the
discovery call itself and the chain outcome list is empty. -/
theorem claim_C3_counterexample :
    dispatchToolCall envC3 availC3 tcC3
      = ⟨[Message.tool "call_3" "[\"p1\"]"],
         [⟨"search_papers", Json.obj [("topic", Json.str "ml")]⟩], []⟩ := rfl

/-- Witness for the amended C3 at a concrete catalog lacking the
condensation tool. -/
theorem claim_C3_witness :
    dispatchToolCall envC3 ["search_papers"] tcC3
      = ⟨[Message.tool "call_3" "[\"p1\"]"],
         [⟨"search_papers", Json.obj [("topic", Json.str "ml")]⟩], []⟩ :=
  claim_C3 envC3 ["search_papers"] tcC3 (Json.obj [("topic", Json.str "ml")])
    ⟨[⟨some "[\"p1\"]"⟩], "r"⟩ "[\"p1\"]" (by decide) rfl rfl rfl

/-- C4: when the discovery result text parses as a JSON array of more
than three identifiers, exactly the first three, in their original
array order, are processed by the chain (`paper_ids[:3]` —
deterministic truncation, never sampling). -/
theorem claim_C4 (env : Env) (avail : List String) (tc : ToolCall) (args : Json)
    (r : CallResult) (text : String) (a b c d : Json) (rest : List Json)
    (hp : env.parseJson tc.arguments = some args)
    (hc : env.callTool tc.name args = Except.ok r)
    (hn : normalizeText r = Except.ok text)
    (hname : tc.name = "search_papers")
    (hei : "extract_info" ∈ avail) (hsp : "summarize_paper" ∈ avail)
    (hr : env.parseJson text = some (Json.arr (a :: b :: c :: d :: rest))) :
    (dispatchToolCall env avail tc).chains
      = [chainStep env avail a, chainStep env avail b, chainStep env avail c] := by
  have hgate : tc.name = "search_papers" ∧ "extract_info" ∈ avail
      ∧ "summarize_paper" ∈ avail := ⟨hname, hei, hsp⟩
  rw [hname] at hc
  simp [dispatchToolCall, hp, hc, hn, hgate, hr, handle_search_and_summarize, pyIter3]

/-- Witness for C4: discovery returns four identifiers; exactly the
first three are chained, in order. -/
theorem claim_C4_witness :
    (dispatchToolCall envC4 availC4 tcC4).chains
      = [chainStep envC4 availC4 (Json.str "p1"), chainStep envC4 availC4 (Json.str "p2"),
         chainStep envC4 availC4 (Json.str "p3")] :=
  claim_C4 envC4 availC4 tcC4 (Json.obj [("topic", Json.str "ml")])
    ⟨[⟨some "[\"p1\",\"p2\",\"p3\",\"p4\"]"⟩], "r"⟩ "[\"p1\",\"p2\",\"p3\",\"p4\"]"
    (Json.str "p1") (Json.str "p2") (Json.str "p3") (Json.str "p4") []
    rfl rfl rfl rfl (by decide) (by decide) rfl

/-- C5: each identifier's chain is independent.  For three chained
identifiers where the second one's detail retrieval raises, the chain
still processes every identifier through its own (self-contained)
step; the failing identifier is reported failed with no condensation
result, and any identifier whose own detail and condensation calls
succeed still produces a condensation result. -/
theorem claim_C5 (env : Env) (avail : List String) (a b c : Json) (err : String)
    (hb : env.callTool "extract_info" (Json.obj [("paper_id", b)]) = Except.error err) :
    handle_search_and_summarize env avail (Json.arr [a, b, c])
        = Except.ok [chainStep env avail a, chainStep env avail b, chainStep env avail c]
      ∧ (chainStep env avail b).summary = none
      ∧ (chainStep env avail b).failed = true
      ∧ (∀ pid r1 t1 r2 s,
          "get_full_text" ∉ avail → "summarize_paper" ∈ avail →
          env.callTool "extract_info" (Json.obj [("paper_id", pid)]) = Except.ok r1 →
          getText r1 = Except.ok t1 →
          env.callTool "summarize_paper" (Json.obj [("text", Json.str t1)]) = Except.ok r2 →
          getText r2 = Except.ok s →
          (chainStep env avail pid).summary = some s) := by
  refine ⟨?_, ?_, ?_, ?_⟩
  · simp [handle_search_and_summarize, pyIter3]
  · simp [chainStep, hb]
  · simp [chainStep, hb]
  · intro pid r1 t1 r2 s hft hsp h1 h2 h3 h4
    simp [chainStep, h1, h2, hft, summarizePhase, hsp, h3, h4]

/-- Witness for C5: with the second of three identifiers failing
detail retrieval, the first identifier still yields its condensation
result. -/
theorem claim_C5_witness :
    (chainStep envC5 availC5 (Json.str "pa")).summary = some "summary-a" :=
  (claim_C5 envC5 availC5 (Json.str "pa") (Json.str "pb") (Json.str "pc")
      "remote error: detail retrieval failed" rfl).2.2.2
    (Json.str "pa") ⟨[⟨some "meta-pa"⟩], "r"⟩ "meta-pa" ⟨[⟨some "summary-a"⟩], "r"⟩
    "summary-a" (by decide) (by decide) rfl rfl rfl rfl

/-- C6 (amended): when the discovery result text does not parse as
JSON at all (`json.loads` raises), chaining is skipped for the turn
without crashing it, and the discovery tool's own result message is
still appended.  (The claim's stronger form — skipping for *every*
result that is not an identifier array — is refuted by
`claim_C6_counterexample`: a result that parses as a JSON *string* is
sliced and iterated character-wise instead of being skipped.) -/
theorem claim_C6 (env : Env) (avail : List String) (tc : ToolCall) (args : Json)
    (r : CallResult) (text : String)
    (hname : tc.name = "search_papers")
    (hei : "extract_info" ∈ avail) (hsp : "summarize_paper" ∈ avail)
    (hp : env.parseJson tc.arguments = some args)
    (hc : env.callTool tc.name args = Except.ok r)
    (hn : normalizeText r = Except.ok text)
    (hbad : env.parseJson text = none) :
    dispatchToolCall env avail tc
      = ⟨[Message.tool tc.id text], [⟨tc.name, args⟩], []⟩ := by
  have hgate : tc.name = "search_papers" ∧ "extract_info" ∈ avail
      ∧ "summarize_paper" ∈ avail := ⟨hname, hei, hsp⟩
  rw [hname] at hc
  simp [dispatchToolCall, hp, hc, hn, hgate, hbad]

/-- Counterexample to C6 as stated: the discovery result text `"ab"`
is valid JSON but not an identifier array, so the claim demands that
chaining be skipped.  Instead the code slices the Python string and
chains over its characters, invoking `extract_info` with paper ids
`"a"` and `"b"`. -/
theorem claim_C6_counterexample :
    (dispatchToolCall envC6 availC6 tcC6).calls
      = [⟨"search_papers", Json.obj [("topic", Json.str "ml")]⟩,
         ⟨"extract_info", Json.obj [("paper_id", Json.str "a")]⟩,
         ⟨"extract_info", Json.obj [("paper_id", Json.str "b")]⟩] := rfl

/-- Witness for the amended C6 at a concrete non-JSON discovery
result. -/
theorem claim_C6_witness :
    dispatchToolCall envC6w availC6 tcC6
      = ⟨[Message.tool "call_6" "oops not json"],
         [⟨"search_papers", Json.obj [("topic", Json.str "ml")]⟩], []⟩ :=
  claim_C6 envC6w availC6 tcC6 (Json.obj [("topic", Json.str "ml")])
    ⟨[⟨some "oops not json"⟩], "r"⟩ "oops not json" rfl (by decide) (by decide)
    rfl rfl rfl rfl

/-- C7 (amended): for a chained identifier with the richer-detail tool
declared available, `get_full_text` is called in addition to
`extract_info`, and its **nonempty** output is preferred as the
condensation input; the basic detail output is used only when the
richer-detail result text is *empty* (Python falsiness in
`full_text or info_text`).  When the richer-detail call *raises*, the
identifier's whole chain step fails: no condensation call is made at
all, and no fallback to the basic detail output happens (refuting the
claim's "if the richer-detail call fails the basic detail output is
used instead", see `claim_C7_counterexample`). -/
theorem claim_C7 (env : Env) (avail : List String) (pid : Json) (r1 : CallResult)
    (t1 : String)
    (hft : "get_full_text" ∈ avail) (hsp : "summarize_paper" ∈ avail)
    (h1 : env.callTool "extract_info" (Json.obj [("paper_id", pid)]) = Except.ok r1)
    (h2 : getText r1 = Except.ok t1) :
    (∀ r2 t2, env.callTool "get_full_text" (Json.obj [("paper_id", pid)]) = Except.ok r2 →
        getText r2 = Except.ok t2 → t2 ≠ "" →
        (chainStep env avail pid).calls
          = [⟨"extract_info", Json.obj [("paper_id", pid)]⟩,
             ⟨"get_full_text", Json.obj [("paper_id", pid)]⟩,
             ⟨"summarize_paper", Json.obj [("text", Json.str t2)]⟩])
    ∧ (∀ r2, env.callTool "get_full_text" (Json.obj [("paper_id", pid)]) = Except.ok r2 →
        getText r2 = Except.ok "" →
        (chainStep env avail pid).calls
          = [⟨"extract_info", Json.obj [("paper_id", pid)]⟩,
             ⟨"get_full_text", Json.obj [("paper_id", pid)]⟩,
             ⟨"summarize_paper", Json.obj [("text", Json.str t1)]⟩])
    ∧ (∀ err, env.callTool "get_full_text" (Json.obj [("paper_id", pid)]) = Except.error err →
        chainStep env avail pid
          = ⟨[⟨"extract_info", Json.obj [("paper_id", pid)]⟩,
              ⟨"get_full_text", Json.obj [("paper_id", pid)]⟩], none, true⟩) := by
  refine ⟨?_, ?_, ?_⟩
  · intro r2 t2 h3 h4 h5
    simp [chainStep, h1, h2, hft, h3, h4, h5, summarizePhase_calls, hsp]
  · intro r2 h3 h4
    simp [chainStep, h1, h2, hft, h3, h4, summarizePhase_calls, hsp]
  · intro err h3
    simp [chainStep, h1, h2, hft, h3]

/-- Counterexample to C7 as stated: detail retrieval succeeds with
metadata text, the richer-detail call raises, and the condensation
tool is available.  The claim demands condensation of the basic detail
output; instead the identifier's chain step aborts — only the two
detail calls were issued, no `summarize_paper` call is made, and no
summary is produced. -/
theorem claim_C7_counterexample :
    chainStep envC7x availC7 (Json.str "p1")
      = ⟨[⟨"extract_info", Json.obj [("paper_id", Json.str "p1")]⟩,
          ⟨"get_full_text", Json.obj [("paper_id", Json.str "p1")]⟩], none, true⟩ := rfl

/-- Witness for the amended C7: with all calls succeeding and a
nonempty full text, the condensation call carries the richer-detail
output. -/
theorem claim_C7_witness :
    (chainStep envC7 availC7 (Json.str "p1")).calls
      = [⟨"extract_info", Json.obj [("paper_id", Json.str "p1")]⟩,
         ⟨"get_full_text", Json.obj [("paper_id", Json.str "p1")]⟩,
         ⟨"summarize_paper", Json.obj [("text", Json.str "full paper text")]⟩] :=
  (claim_C7 envC7 availC7 (Json.str "p1") ⟨[⟨some "metadata text"⟩], "r"⟩ "metadata text"
      (by decide) (by decide) rfl rfl).1
    ⟨[⟨some "full paper text"⟩], "r"⟩ "full paper text" rfl rfl (by decide)
